import Mathlib

/-!
# Verification of `deepinfra.py` (codewalk repository)

A shallow embedding of the single-file text-to-speech client
`src/deepinfra.py`.  The script resolves a bearer token from the
environment, performs one HTTP POST, parses the JSON response, extracts a
base64-encoded audio payload (`_extract_base64_audio`), writes the decoded
bytes to `kokoro_out.wav`, and exits.

Python runtime values produced by `json.loads` (and the `None` returned by
`dict.get` on a missing key) are embedded as `PyVal`; Python truthiness as
`truthy`; the standard-library `base64.b64decode` (non-strict mode: foreign
characters are discarded, then the padding check runs) as `b64decode`; the
whole program run, parameterised by the environment and by the outcome of
the single POST, as `runProgram`.
-/

namespace DeepInfra

/-- Python runtime values as returned by `json.loads`, plus `Python None`
(`json` `null` also maps to `PyVal.none`).  Dicts are association lists;
the embedded program only ever builds dicts without duplicate keys. -/
inductive PyVal where
  | none : PyVal
  | bool : Bool → PyVal
  | int : Int → PyVal
  | str : String → PyVal
  | list : List PyVal → PyVal
  | dict : List (String × PyVal) → PyVal

/-- Python truthiness (`bool(v)`): `None`, `False`, `0`, `""`, `[]`, `{}`
are falsy, everything else truthy. -/
def truthy : PyVal → Bool
  | PyVal.none => false
  | PyVal.bool b => b
  | PyVal.int n => n != 0
  | PyVal.str s => s ≠ ""
  | PyVal.list xs => !xs.isEmpty
  | PyVal.dict kvs => !kvs.isEmpty

/-- Python `isinstance(v, str)`. -/
def isStr : PyVal → Bool
  | PyVal.str _ => true
  | _ => false

/-- Errors the embedded program can raise and not catch. -/
inductive PyErr where
  | attributeError : PyErr
deriving DecidableEq

/-- Python `d.get(k)` for a dict: the stored value, or `None` when the key
is missing.  Calling `.get` on any non-dict raises `AttributeError`. -/
def pyDictGet : PyVal → String → Except PyErr PyVal
  | PyVal.dict kvs, k => Except.ok ((kvs.lookup k).getD PyVal.none)
  | _, _ => Except.error PyErr.attributeError

/-- Python string slicing `s[:n]` (character-based, like `len`). -/
def pyTake (s : String) (n : Nat) : String :=
  String.mk (s.toList.take n)

/-! ## Model of `base64.b64decode` / `base64.b64encode`

`base64.b64decode(s)` with `validate=False` (the default, used at line 64
of the source): characters outside the base-64 alphabet are discarded,
then the string must consist of 4-character groups, with `=` padding only
closing the final group; otherwise `binascii.Error` is raised (caught by
the source and turned into `None`). -/

/-- The 6-bit value of a standard base-64 alphabet character. -/
def b64Index (c : Char) : Option Nat :=
  if 'A' ≤ c ∧ c ≤ 'Z' then some (c.toNat - 65)
  else if 'a' ≤ c ∧ c ≤ 'z' then some (c.toNat - 97 + 26)
  else if '0' ≤ c ∧ c ≤ '9' then some (c.toNat - 48 + 52)
  else if c = '+' then some 62
  else if c = '/' then some 63
  else Option.none

/-- The standard base-64 alphabet character for a 6-bit value. -/
def b64Char (n : Nat) : Char :=
  if n < 26 then Char.ofNat (65 + n)
  else if n < 52 then Char.ofNat (97 + (n - 26))
  else if n < 62 then Char.ofNat (48 + (n - 52))
  else if n = 62 then '+'
  else '/'

/-- Decode a cleaned base-64 character stream four characters at a time.
`=` may appear only as padding of the final quad. -/
def decodeQuads : List Char → Option (List Nat)
  | [] => some []
  | a :: b :: c :: d :: rest => do
      let ia ← b64Index a
      let ib ← b64Index b
      if c = '=' then
        if d = '=' ∧ rest = [] then some [ia * 4 + ib / 16] else Option.none
      else do
        let ic ← b64Index c
        if d = '=' then
          if rest = [] then some [ia * 4 + ib / 16, (ib % 16) * 16 + ic / 4]
          else Option.none
        else do
          let id ← b64Index d
          let tail ← decodeQuads rest
          some ([ia * 4 + ib / 16, (ib % 16) * 16 + ic / 4, (ic % 4) * 64 + id] ++ tail)
  | _ => Option.none

/-- Characters `base64.b64decode` keeps before decoding. -/
def b64Keep (c : Char) : Bool :=
  (b64Index c).isSome || c = '='

/-- Model of `base64.b64decode` on a character list: discard foreign characters,
check padding (length divisible by 4), decode; `none` models a raised
`binascii.Error`. -/
def b64decodeList (l : List Char) : Option (List Nat) :=
  let cleaned := l.filter b64Keep
  if cleaned.length % 4 = 0 then decodeQuads cleaned else Option.none

/-- Model of `base64.b64decode` on a Python string. -/
def b64decode (s : String) : Option (List Nat) :=
  b64decodeList s.toList

/-- Model of `base64.b64encode`: standard base-64 with `=` padding, three input
bytes per four output characters. -/
def b64encodeList : List Nat → List Char
  | [] => []
  | [x] => [b64Char (x / 4), b64Char (x % 4 * 16), '=', '=']
  | [x, y] => [b64Char (x / 4), b64Char (x % 4 * 16 + y / 16), b64Char (y % 16 * 4), '=']
  | x :: y :: z :: rest =>
      b64Char (x / 4) :: b64Char (x % 4 * 16 + y / 16) ::
      b64Char (y % 16 * 4 + z / 64) :: b64Char (z % 64) :: b64encodeList rest

/-! ## `_extract_base64_audio` (source lines 36–66) -/

/-- Everything after the first `,` of a character list. -/
def afterComma : List Char → List Char
  | [] => []
  | c :: cs => if c = ',' then cs else afterComma cs

/-- Source lines 54–56: `if "," in audio_field: audio_field =
audio_field.split(",", 1)[1]` — strip a data-URL prefix. -/
def stripDataUrl (s : String) : String :=
  if s.toList.contains ',' then String.mk (afterComma s.toList) else s

/-- Source lines 58–61: right-pad with `=` until the length is a multiple
of 4 (`pad = len(audio_field) % 4; if pad: audio_field += "=" * (4 - pad)`). -/
def padCorrect (s : String) : String :=
  let pad := s.length % 4
  if pad = 0 then s else s ++ String.mk (List.replicate (4 - pad) '=')

/-- Source line 43: `audio_field = payload_dict.get("audio")`. -/
def topAudio (kvs : List (String × PyVal)) : PyVal :=
  (kvs.lookup "audio").getD PyVal.none

/-- Source lines 43–49: pick the candidate audio field.  If the top-level
`audio` value is falsy and `payload_dict.get("output")` is a list whose
first element is a dict (`if arr and isinstance(arr[0], dict)`), use that
dict's `"audio"` entry; otherwise keep the original value. -/
def audioCandidate (kvs : List (String × PyVal)) : PyVal :=
  if truthy (topAudio kvs) then topAudio kvs
  else
    match (kvs.lookup "output").getD PyVal.none with
    | PyVal.list [] => topAudio kvs
    | PyVal.list (first :: _) =>
        match first with
        | PyVal.dict kvs2 => (kvs2.lookup "audio").getD PyVal.none
        | _ => topAudio kvs
    | _ => topAudio kvs

/-- Source lines 54–66: normalization and decoding of the candidate
string: strip data-URL prefix, pad, `base64.b64decode`; any decode error
becomes `None`. -/
def decodePipeline (s : String) : Option (List Nat) :=
  b64decode (padCorrect (stripDataUrl s))

/-- The function `_extract_base64_audio(payload_dict)` (source lines 36–66).  On a
non-dict argument the very first `payload_dict.get("audio")` raises
`AttributeError` (the annotation `dict` is not enforced by Python).
A falsy (`None`, `""`, …) or non-string candidate yields `None`. -/
def extractBase64Audio : PyVal → Except PyErr (Option (List Nat))
  | PyVal.dict kvs =>
      match audioCandidate kvs with
      | PyVal.str s =>
          if s = "" then Except.ok Option.none
          else Except.ok (decodePipeline s)
      | _ => Except.ok Option.none
  | _ => Except.error PyErr.attributeError

/-! ## Model of `json.dumps(data, indent=2)` (source line 85)

String escaping is omitted (the embedded program only ever prints it
truncated; no claim depends on escape sequences). -/

/-- A run of `indent`-many spaces. -/
def indentStr (n : Nat) : String :=
  String.mk (List.replicate n ' ')

mutual

/-- Model of `json.dumps(v, indent=2)` rendered at indentation level `ind`. -/
def pyDumpsVal : PyVal → Nat → String
  | PyVal.none, _ => "null"
  | PyVal.bool b, _ => if b then "true" else "false"
  | PyVal.int n, _ => toString n
  | PyVal.str s, _ => "\"" ++ s ++ "\""
  | PyVal.list [], _ => "[]"
  | PyVal.list (x :: xs), ind =>
      "[\n" ++ pyDumpsItems (x :: xs) (ind + 2) ++ "\n" ++ indentStr ind ++ "]"
  | PyVal.dict [], _ => "\x7b\x7d"
  | PyVal.dict (kv :: kvs), ind =>
      "\x7b\n" ++ pyDumpsEntries (kv :: kvs) (ind + 2) ++ "\n" ++ indentStr ind ++ "\x7d"

/-- List elements, one per line, comma-separated. -/
def pyDumpsItems : List PyVal → Nat → String
  | [], _ => ""
  | [x], ind => indentStr ind ++ pyDumpsVal x ind
  | x :: y :: xs, ind =>
      indentStr ind ++ pyDumpsVal x ind ++ ",\n" ++ pyDumpsItems (y :: xs) ind

/-- Dict entries, one per line, comma-separated. -/
def pyDumpsEntries : List (String × PyVal) → Nat → String
  | [], _ => ""
  | [(k, v)], ind => indentStr ind ++ "\"" ++ k ++ "\": " ++ pyDumpsVal v ind
  | (k, v) :: e :: kvs, ind =>
      indentStr ind ++ "\"" ++ k ++ "\": " ++ pyDumpsVal v ind ++ ",\n" ++
      pyDumpsEntries (e :: kvs) ind

end

/-! ## The program run (source lines 10–34 and 68–96)

The run is parameterised by the two environment variables and by the
outcome of the single `requests.post` call.  JSON parsing of the response
body is abstracted into the response: `HttpResponse.json` is `some v` when
`resp.json()` succeeds with value `v` and `none` when it raises
`json.JSONDecodeError`.  Playback (lines 92–96) touches no state relevant
to any claim; the model takes the non-darwin branch, which prints the
instructional hint. -/

/-- Fixed request text (source line 19). -/
def TEXT : String :=
  "Oh my god dominik. I love it when you do that. Oh my god. It\x27s so good."

/-- Fixed voice preset (source line 20). -/
def VOICE : String := "af_bella"

/-- Fixed output format (source line 21). -/
def FORMAT : String := "wav"

/-- Fixed output filename (source line 22). -/
def OUTFILE : String := "kokoro_out." ++ FORMAT

/-- Fixed endpoint (source line 24). -/
def URL : String := "https://api.deepinfra.com/v1/inference/hexgrad/Kokoro-82M"

/-- Python `a or b` on `os.getenv` results (source lines 10–13): the first
operand unless it is `None` or `""`, else the second. -/
def pyOr (a b : Option String) : Option String :=
  match a with
  | Option.some s => if s = "" then b else Option.some s
  | Option.none => b

/-- An HTTP response as seen by the script: status code, body text, and
the result of `resp.json()` (`none` models a raised `JSONDecodeError`). -/
structure HttpResponse where
  status : Nat
  text : String
  json : Option PyVal

/-- Outcome of the single `requests.post` call: either a transport-level
exception raised before `resp` was ever bound (timeout, connection
failure), or a received response. -/
inductive PostResult where
  | exn : PostResult
  | resp : HttpResponse → PostResult

/-- The outgoing request (source lines 25–34). -/
structure RequestDesc where
  authorization : String
  contentType : String
  text : String
  voice : String
  outputFormat : String
deriving DecidableEq

/-- One `print` of the script; data-dependent truncated snippets are
carried explicitly. -/
inductive Msg where
  | configError : Msg
  | httpError (bodySnippet : String) : Msg
  | nonJson (snippet : String) : Msg
  | noAudioDump (snippet : String) : Msg
  | wrote : Msg
  | openHint : Msg
deriving DecidableEq

/-- Observable outcome of one run: what was printed, the exit status,
whether termination was via an unhandled exception (traceback), whether
the network call / JSON parse were attempted, the request that was built,
and the bytes written to `kokoro_out.wav` (`none` = file untouched). -/
structure RunOutcome where
  printed : List Msg
  exitCode : Nat
  crashed : Bool
  networkAttempted : Bool
  jsonParseAttempted : Bool
  request : Option RequestDesc
  fileWritten : Option (List Nat)
deriving DecidableEq

/-- Headers (source lines 25–29) and payload (lines 30–34). -/
def buildRequest (key : String) : RequestDesc :=
  { authorization := "bearer " ++ key
    contentType := "application/json"
    text := TEXT
    voice := VOICE
    outputFormat := FORMAT }

/-- Source lines 14–16: `if not API_KEY: print(...); sys.exit(1)` — this
runs at module load, before `main()` and before any network I/O. -/
def configOutcome : RunOutcome :=
  { printed := [Msg.configError], exitCode := 1, crashed := false
    networkAttempted := false, jsonParseAttempted := false
    request := Option.none, fileWritten := Option.none }

/-- The function `main()` (source lines 68–96) with a resolved, truthy API key. -/
def runWithKey (key : String) (post : PostResult) : RunOutcome :=
  let req := buildRequest key
  match post with
  | PostResult.exn =>
      -- `requests.post` raised before `resp` was bound; the handler's
      -- f-string (line 73) evaluates `getattr(resp, 'text', '')` and raises
      -- UnboundLocalError, which nothing catches: traceback, exit 1, and the
      -- intended message is never printed.
      { printed := [], exitCode := 1, crashed := true, networkAttempted := true
        jsonParseAttempted := false, request := Option.some req
        fileWritten := Option.none }
  | PostResult.resp r =>
      -- `resp.raise_for_status()` raises `HTTPError` exactly for 4xx/5xx.
      if 400 ≤ r.status ∧ r.status < 600 then
        { printed := [Msg.httpError (pyTake r.text 500)], exitCode := 1
          crashed := false, networkAttempted := true, jsonParseAttempted := false
          request := Option.some req, fileWritten := Option.none }
      else
        match r.json with
        | Option.none =>
            { printed := [Msg.nonJson (pyTake r.text 500)], exitCode := 1
              crashed := false, networkAttempted := true, jsonParseAttempted := true
              request := Option.some req, fileWritten := Option.none }
        | Option.some data =>
            match extractBase64Audio data with
            | Except.error _ =>
                -- AttributeError from `_extract_base64_audio` escapes `main`:
                -- traceback, exit 1, no diagnostic dump.
                { printed := [], exitCode := 1, crashed := true
                  networkAttempted := true, jsonParseAttempted := true
                  request := Option.some req, fileWritten := Option.none }
            | Except.ok ob =>
                -- `if not audio_bytes:` — `None` and `b""` are both falsy.
                let dump : RunOutcome :=
                  { printed := [Msg.noAudioDump (pyTake (pyDumpsVal data 0) 2000)]
                    exitCode := 1, crashed := false, networkAttempted := true
                    jsonParseAttempted := true, request := Option.some req
                    fileWritten := Option.none }
                match ob with
                | Option.none => dump
                | Option.some bs =>
                    if bs.isEmpty then dump
                    else
                      { printed := [Msg.wrote, Msg.openHint], exitCode := 0
                        crashed := false, networkAttempted := true
                        jsonParseAttempted := true, request := Option.some req
                        fileWritten := Option.some bs }

/-- One whole run of `deepinfra.py`, given the two environment variables
(`DEEPINFRA_API_KEY`, `DEEPINFRA_API_TOKEN`) and the POST outcome. -/
def runProgram (envKey envToken : Option String) (post : PostResult) : RunOutcome :=
  match pyOr envKey envToken with
  | Option.none => configOutcome
  | Option.some key => if key = "" then configOutcome else runWithKey key post

/-- Content of `kokoro_out.wav` after a run, given its prior content. -/
def applyFS (fs : Option (List Nat)) (o : RunOutcome) : Option (List Nat) :=
  match o.fileWritten with
  | Option.some b => Option.some b
  | Option.none => fs

/-! ## Lemmas about the base-64 model -/

theorem b64Index_b64Char : ∀ n, n < 64 → b64Index (b64Char n) = some n := by decide

theorem b64Char_ne_pad : ∀ n, n < 64 → ¬ (b64Char n = '=') := by decide

theorem b64Char_ne_comma : ∀ n, n < 64 → ¬ (b64Char n = ',') := by decide

theorem b64Keep_b64Char : ∀ n, n < 64 → b64Keep (b64Char n) = true := by decide

theorem b64Keep_pad : b64Keep '=' = true := by decide

/-- Every character that `b64encodeList` emits is kept by the decoder's
character filter. -/
theorem filter_b64Keep_encode :
    ∀ bs : List Nat, (∀ x ∈ bs, x < 256) →
      (b64encodeList bs).filter b64Keep = b64encodeList bs
  | [], _ => rfl
  | [x], h => by
      have hx : x < 256 := h x (by simp)
      simp [b64encodeList, List.filter,
        b64Keep_b64Char (x / 4) (by omega),
        b64Keep_b64Char (x % 4 * 16) (by omega), b64Keep_pad]
  | [x, y], h => by
      have hx : x < 256 := h x (by simp)
      have hy : y < 256 := h y (by simp)
      simp [b64encodeList, List.filter,
        b64Keep_b64Char (x / 4) (by omega),
        b64Keep_b64Char (x % 4 * 16 + y / 16) (by omega),
        b64Keep_b64Char (y % 16 * 4) (by omega), b64Keep_pad]
  | x :: y :: z :: rest, h => by
      have hx : x < 256 := h x (by simp)
      have hy : y < 256 := h y (by simp)
      have hz : z < 256 := h z (by simp)
      have ih := filter_b64Keep_encode rest (fun a ha => h a (by simp [ha]))
      simp [b64encodeList, List.filter_cons,
        b64Keep_b64Char (x / 4) (by omega),
        b64Keep_b64Char (x % 4 * 16 + y / 16) (by omega),
        b64Keep_b64Char (y % 16 * 4 + z / 64) (by omega),
        b64Keep_b64Char (z % 64) (by omega), ih]

/-- The encoder `b64encodeList` emits complete 4-character groups. -/
theorem length_encode_mod4 : ∀ bs : List Nat, (b64encodeList bs).length % 4 = 0
  | [] => by simp [b64encodeList]
  | [_] => by simp [b64encodeList]
  | [_, _] => by simp [b64encodeList]
  | _ :: _ :: _ :: rest => by
      have ih := length_encode_mod4 rest
      simp only [b64encodeList, List.length_cons]
      omega

/-- The quad decoder inverts the encoder on byte inputs. -/
theorem decodeQuads_encode :
    ∀ bs : List Nat, (∀ x ∈ bs, x < 256) →
      decodeQuads (b64encodeList bs) = some bs
  | [], _ => rfl
  | [x], h => by
      have hx : x < 256 := h x (by simp)
      simp [b64encodeList, decodeQuads,
        b64Index_b64Char (x / 4) (by omega),
        b64Index_b64Char (x % 4 * 16) (by omega)]
      omega
  | [x, y], h => by
      have hx : x < 256 := h x (by simp)
      have hy : y < 256 := h y (by simp)
      simp [b64encodeList, decodeQuads,
        b64Index_b64Char (x / 4) (by omega),
        b64Index_b64Char (x % 4 * 16 + y / 16) (by omega),
        b64Index_b64Char (y % 16 * 4) (by omega),
        b64Char_ne_pad (y % 16 * 4) (by omega)]
      omega
  | x :: y :: z :: rest, h => by
      have hx : x < 256 := h x (by simp)
      have hy : y < 256 := h y (by simp)
      have hz : z < 256 := h z (by simp)
      have ih := decodeQuads_encode rest (fun a ha => h a (by simp [ha]))
      simp [b64encodeList, decodeQuads,
        b64Index_b64Char (x / 4) (by omega),
        b64Index_b64Char (x % 4 * 16 + y / 16) (by omega),
        b64Index_b64Char (y % 16 * 4 + z / 64) (by omega),
        b64Index_b64Char (z % 64) (by omega),
        b64Char_ne_pad (y % 16 * 4 + z / 64) (by omega),
        b64Char_ne_pad (z % 64) (by omega), ih]
      omega

/-- Round trip: `base64.b64decode` inverts `base64.b64encode`. -/
theorem b64decodeList_encode (bs : List Nat) (h : ∀ x ∈ bs, x < 256) :
    b64decodeList (b64encodeList bs) = some bs := by
  unfold b64decodeList
  rw [filter_b64Keep_encode bs h]
  simp [length_encode_mod4 bs, decodeQuads_encode bs h]

/-- The padding correction at the character-list level. -/
def padCorrectChars (l : List Char) : List Char :=
  if l.length % 4 = 0 then l else l ++ List.replicate (4 - l.length % 4) '='

theorem padCorrect_toList (s : String) :
    (padCorrect s).toList = padCorrectChars s.toList := by
  cases s with
  | mk l =>
      by_cases h : l.length % 4 = 0
      · simp [padCorrect, padCorrectChars, String.length, String.toList, h]
      · simp [padCorrect, padCorrectChars, String.length, String.toList, h,
          String.instAppend, String.append]

/-- Padding correction rebuilds exactly the `=` suffix that stripping the
padding from an encoded payload removed. -/
theorem padCorrectChars_unpadded :
    ∀ bs : List Nat, (∀ x ∈ bs, x < 256) →
      padCorrectChars ((b64encodeList bs).filter (fun c => !(c = '='))) =
        b64encodeList bs
  | [], _ => rfl
  | [x], h => by
      have hx : x < 256 := h x (by simp)
      simp [b64encodeList, List.filter_cons,
        b64Char_ne_pad (x / 4) (by omega),
        b64Char_ne_pad (x % 4 * 16) (by omega), padCorrectChars,
        List.replicate]
  | [x, y], h => by
      have hx : x < 256 := h x (by simp)
      have hy : y < 256 := h y (by simp)
      simp [b64encodeList, List.filter_cons,
        b64Char_ne_pad (x / 4) (by omega),
        b64Char_ne_pad (x % 4 * 16 + y / 16) (by omega),
        b64Char_ne_pad (y % 16 * 4) (by omega), padCorrectChars,
        List.replicate]
  | x :: y :: z :: rest, h => by
      have hx : x < 256 := h x (by simp)
      have hy : y < 256 := h y (by simp)
      have hz : z < 256 := h z (by simp)
      have ih := padCorrectChars_unpadded rest (fun a ha => h a (by simp [ha]))
      have hlen := length_encode_mod4 rest
      simp only [b64encodeList, List.filter_cons,
        b64Char_ne_pad (x / 4) (by omega),
        b64Char_ne_pad (x % 4 * 16 + y / 16) (by omega),
        b64Char_ne_pad (y % 16 * 4 + z / 64) (by omega),
        b64Char_ne_pad (z % 64) (by omega), decide_False, Bool.not_false,
        if_true]
      unfold padCorrectChars at ih ⊢
      set f := (b64encodeList rest).filter (fun c => !(c = '=')) with hf
      simp only [List.length_cons]
      by_cases h4 : f.length % 4 = 0
      · rw [if_pos h4] at ih
        rw [if_pos (by omega), ih]
      · rw [if_neg h4] at ih
        rw [if_neg (by omega)]
        have : (4 + f.length) % 4 = f.length % 4 := by omega
        simp only [show f.length + 1 + 1 + 1 + 1 = 4 + f.length by omega, this]
        simp only [List.cons_append, List.append_assoc]
        rw [ih]

/-- Every character the encoder emits decodes or is `=`; in particular the
encoded payload never contains a comma. -/
theorem encode_not_contains_comma (bs : List Nat) (h : ∀ x ∈ bs, x < 256) :
    (b64encodeList bs).contains ',' = false := by
  have hall : ∀ c ∈ b64encodeList bs, b64Keep c = true :=
    List.filter_eq_self.mp (filter_b64Keep_encode bs h)
  cases hc : (b64encodeList bs).contains ',' with
  | false => rfl
  | true =>
      have hmem : ',' ∈ b64encodeList bs := List.elem_iff.mp hc
      exact absurd (hall ',' hmem) (by decide)

theorem encode_ne_nil : ∀ bs : List Nat, bs ≠ [] → b64encodeList bs ≠ []
  | [], h => absurd rfl h
  | [_], _ => by simp [b64encodeList]
  | [_, _], _ => by simp [b64encodeList]
  | _ :: _ :: _ :: _, _ => by simp [b64encodeList]

/-- The filtered (unpadded) payload of a non-empty byte string is non-empty. -/
theorem filter_encode_ne_nil (bs : List Nat) (h : ∀ x ∈ bs, x < 256)
    (hbs : bs ≠ []) : (b64encodeList bs).filter (fun c => !(c = '=')) ≠ [] := by
  intro hnil
  have := padCorrectChars_unpadded bs h
  rw [hnil] at this
  exact encode_ne_nil bs hbs this.symm

theorem filter_encode_not_contains_comma (bs : List Nat)
    (h : ∀ x ∈ bs, x < 256) :
    ((b64encodeList bs).filter (fun c => !(c = '='))).contains ',' = false := by
  cases hc : ((b64encodeList bs).filter (fun c => !(c = '='))).contains ',' with
  | false => rfl
  | true =>
      have hmem : ',' ∈ (b64encodeList bs).filter (fun c => !(c = '=')) :=
        List.elem_iff.mp hc
      have : (b64encodeList bs).contains ',' = true :=
        List.elem_iff.mpr (List.mem_of_mem_filter hmem)
      rw [encode_not_contains_comma bs h] at this
      exact absurd this (by decide)

/-- The decoding pipeline of `_extract_base64_audio` inverts
`base64.b64encode` on a padded payload. -/
theorem decodePipeline_encode (bs : List Nat) (h : ∀ x ∈ bs, x < 256) :
    decodePipeline (String.mk (b64encodeList bs)) = some bs := by
  unfold decodePipeline
  have hns : stripDataUrl (String.mk (b64encodeList bs)) =
      String.mk (b64encodeList bs) := by
    unfold stripDataUrl
    rw [show (String.mk (b64encodeList bs)).toList = b64encodeList bs from rfl,
      encode_not_contains_comma bs h]
    simp
  rw [hns]
  unfold b64decode
  rw [padCorrect_toList,
    show (String.mk (b64encodeList bs)).toList = b64encodeList bs from rfl]
  unfold padCorrectChars
  rw [if_pos (length_encode_mod4 bs)]
  exact b64decodeList_encode bs h

/-- The decoding pipeline also inverts `base64.b64encode` when the
trailing `=` padding has been stripped from the payload: the padding
correction of lines 58–61 restores it. -/
theorem decodePipeline_encode_unpadded (bs : List Nat)
    (h : ∀ x ∈ bs, x < 256) :
    decodePipeline
      (String.mk ((b64encodeList bs).filter (fun c => !(c = '=')))) = some bs := by
  unfold decodePipeline
  have hns : stripDataUrl
      (String.mk ((b64encodeList bs).filter (fun c => !(c = '=')))) =
      String.mk ((b64encodeList bs).filter (fun c => !(c = '='))) := by
    unfold stripDataUrl
    rw [show (String.mk ((b64encodeList bs).filter (fun c => !(c = '=')))).toList
        = (b64encodeList bs).filter (fun c => !(c = '=')) from rfl,
      filter_encode_not_contains_comma bs h]
    simp
  rw [hns]
  unfold b64decode
  rw [padCorrect_toList,
    show (String.mk ((b64encodeList bs).filter (fun c => !(c = '=')))).toList
      = (b64encodeList bs).filter (fun c => !(c = '=')) from rfl,
    padCorrectChars_unpadded bs h]
  exact b64decodeList_encode bs h

/-- The helper `afterComma` drops exactly the segment up to and including the first
comma. -/
theorem afterComma_append (pre rest : List Char) (hp : ',' ∉ pre) :
    afterComma (pre ++ ',' :: rest) = rest := by
  induction pre with
  | nil => simp [afterComma]
  | cons c cs ih =>
      have hc : ¬ (c = ',') := fun hc => hp (by simp [hc])
      have hcs : ',' ∉ cs := fun hm => hp (by simp [hm])
      simp [afterComma, hc, ih hcs]

/-- Stripping a data URL on a string with a comma keeps exactly the part after
the first comma. -/
theorem stripDataUrl_split (pre rest : List Char) (hp : ',' ∉ pre) :
    stripDataUrl (String.mk (pre ++ ',' :: rest)) = String.mk rest := by
  unfold stripDataUrl
  rw [show (String.mk (pre ++ ',' :: rest)).toList = pre ++ ',' :: rest from rfl]
  rw [if_pos (List.elem_iff.mpr (by simp))]
  rw [afterComma_append pre rest hp]

/-- If the candidate audio field is a non-empty string, extraction runs
the decoding pipeline on it. -/
theorem extract_candidate_str (kvs : List (String × PyVal)) (s : String)
    (hc : audioCandidate kvs = PyVal.str s) (hs : s ≠ "") :
    extractBase64Audio (PyVal.dict kvs) = Except.ok (decodePipeline s) := by
  simp only [extractBase64Audio, hc]
  simp [hs]

/-- If the candidate audio field is not a non-empty string, extraction
returns `None` (and does not raise). -/
theorem extract_candidate_not_str (kvs : List (String × PyVal))
    (hc : ∀ s : String, audioCandidate kvs = PyVal.str s → s = "") :
    extractBase64Audio (PyVal.dict kvs) = Except.ok Option.none := by
  cases hv : audioCandidate kvs with
  | str s => simp [extractBase64Audio, hv, hc s hv]
  | none => simp [extractBase64Audio, hv]
  | bool b => simp [extractBase64Audio, hv]
  | int n => simp [extractBase64Audio, hv]
  | list xs => simp [extractBase64Audio, hv]
  | dict kvs2 => simp [extractBase64Audio, hv]

/-! ## Branch lemmas for the run model -/

theorem runProgram_config (k t : Option String) (post : PostResult)
    (hk : pyOr k t = Option.none ∨ pyOr k t = Option.some "") :
    runProgram k t post = configOutcome := by
  unfold runProgram
  rcases hk with h | h
  · rw [h]
  · rw [h]
    simp

theorem runProgram_key (k t : Option String) (key : String) (post : PostResult)
    (h : pyOr k t = Option.some key) (hk : key ≠ "") :
    runProgram k t post = runWithKey key post := by
  unfold runProgram
  rw [h]
  simp [hk]

theorem runWithKey_exn (key : String) :
    runWithKey key PostResult.exn =
      { printed := [], exitCode := 1, crashed := true, networkAttempted := true
        jsonParseAttempted := false, request := Option.some (buildRequest key)
        fileWritten := Option.none } := rfl

theorem runWithKey_http_error (key : String) (r : HttpResponse)
    (h4 : 400 ≤ r.status) (h6 : r.status < 600) :
    runWithKey key (PostResult.resp r) =
      { printed := [Msg.httpError (pyTake r.text 500)], exitCode := 1
        crashed := false, networkAttempted := true, jsonParseAttempted := false
        request := Option.some (buildRequest key), fileWritten := Option.none } := by
  simp only [runWithKey]
  rw [if_pos ⟨h4, h6⟩]

theorem runWithKey_nonjson (key : String) (r : HttpResponse)
    (hs : ¬ (400 ≤ r.status ∧ r.status < 600)) (hj : r.json = Option.none) :
    runWithKey key (PostResult.resp r) =
      { printed := [Msg.nonJson (pyTake r.text 500)], exitCode := 1
        crashed := false, networkAttempted := true, jsonParseAttempted := true
        request := Option.some (buildRequest key), fileWritten := Option.none } := by
  simp only [runWithKey]
  rw [if_neg hs, hj]

theorem runWithKey_extract_raise (key : String) (r : HttpResponse) (data : PyVal)
    (hs : ¬ (400 ≤ r.status ∧ r.status < 600)) (hj : r.json = Option.some data)
    (he : extractBase64Audio data = Except.error PyErr.attributeError) :
    runWithKey key (PostResult.resp r) =
      { printed := [], exitCode := 1, crashed := true, networkAttempted := true
        jsonParseAttempted := true, request := Option.some (buildRequest key)
        fileWritten := Option.none } := by
  simp only [runWithKey]
  rw [if_neg hs, hj]
  simp only [he]

theorem runWithKey_no_audio (key : String) (r : HttpResponse) (data : PyVal)
    (hs : ¬ (400 ≤ r.status ∧ r.status < 600)) (hj : r.json = Option.some data)
    (he : extractBase64Audio data = Except.ok Option.none) :
    runWithKey key (PostResult.resp r) =
      { printed := [Msg.noAudioDump (pyTake (pyDumpsVal data 0) 2000)]
        exitCode := 1, crashed := false, networkAttempted := true
        jsonParseAttempted := true, request := Option.some (buildRequest key)
        fileWritten := Option.none } := by
  simp only [runWithKey]
  rw [if_neg hs, hj]
  simp only [he]

theorem runWithKey_empty_audio (key : String) (r : HttpResponse) (data : PyVal)
    (hs : ¬ (400 ≤ r.status ∧ r.status < 600)) (hj : r.json = Option.some data)
    (he : extractBase64Audio data = Except.ok (Option.some [])) :
    runWithKey key (PostResult.resp r) =
      { printed := [Msg.noAudioDump (pyTake (pyDumpsVal data 0) 2000)]
        exitCode := 1, crashed := false, networkAttempted := true
        jsonParseAttempted := true, request := Option.some (buildRequest key)
        fileWritten := Option.none } := by
  simp only [runWithKey]
  rw [if_neg hs, hj]
  simp only [he]
  simp

theorem runWithKey_success (key : String) (r : HttpResponse) (data : PyVal)
    (bs : List Nat) (hs : ¬ (400 ≤ r.status ∧ r.status < 600))
    (hj : r.json = Option.some data)
    (he : extractBase64Audio data = Except.ok (Option.some bs)) (hbs : bs ≠ []) :
    runWithKey key (PostResult.resp r) =
      { printed := [Msg.wrote, Msg.openHint], exitCode := 0, crashed := false
        networkAttempted := true, jsonParseAttempted := true
        request := Option.some (buildRequest key)
        fileWritten := Option.some bs } := by
  simp only [runWithKey]
  rw [if_neg hs, hj]
  simp only [he]
  simp [hbs]

/-- Python `s[:n]` keeps at most `n` characters. -/
theorem pyTake_length_le (s : String) (n : Nat) : (pyTake s n).length ≤ n := by
  show (s.toList.take n).length ≤ n
  rw [List.length_take]
  exact Nat.min_le_left n _

/-- Every branch of `main` runs after the request was built. -/
theorem runWithKey_request (key : String) (post : PostResult) :
    (runWithKey key post).request = Option.some (buildRequest key) := by
  cases post with
  | exn => rfl
  | resp r =>
      simp only [runWithKey]
      split
      · rfl
      · split
        · rfl
        · split
          · rfl
          · split
            · rfl
            · split
              · rfl
              · rfl

/-- Every branch of `main` either leaves the output file untouched and
exits 1, or exits 0 having written a byte string. -/
theorem runWithKey_cases (key : String) (post : PostResult) :
    ((runWithKey key post).fileWritten = Option.none ∧
      (runWithKey key post).exitCode = 1) ∨
    (∃ bs : List Nat, (runWithKey key post).fileWritten = Option.some bs ∧
      (runWithKey key post).exitCode = 0) := by
  cases post with
  | exn => exact Or.inl ⟨rfl, rfl⟩
  | resp r =>
      simp only [runWithKey]
      split
      · exact Or.inl ⟨rfl, rfl⟩
      · split
        · exact Or.inl ⟨rfl, rfl⟩
        · split
          · exact Or.inl ⟨rfl, rfl⟩
          · split
            · exact Or.inl ⟨rfl, rfl⟩
            · split
              · exact Or.inl ⟨rfl, rfl⟩
              · exact Or.inr ⟨_, rfl, rfl⟩

/-- A run either leaves the output file untouched and exits 1, or exits 0
having written a byte string. -/
theorem run_cases (k t : Option String) (post : PostResult) :
    ((runProgram k t post).fileWritten = Option.none ∧
      (runProgram k t post).exitCode = 1) ∨
    (∃ bs : List Nat, (runProgram k t post).fileWritten = Option.some bs ∧
      (runProgram k t post).exitCode = 0) := by
  cases hp : pyOr k t with
  | none =>
      rw [runProgram_config k t post (Or.inl hp)]
      exact Or.inl ⟨rfl, rfl⟩
  | some key =>
      by_cases hk : key = ""
      · rw [runProgram_config k t post (Or.inr (hk ▸ hp))]
        exact Or.inl ⟨rfl, rfl⟩
      · rw [runProgram_key k t key post hp hk]
        exact runWithKey_cases key post

/-! ## Claims -/

/-- Claim C3 (confirmed): if neither of the two recognized environment
variables (`DEEPINFRA_API_KEY`, `DEEPINFRA_API_TOKEN`) is set, or both are
empty strings (any mix of unset and empty), the process terminates with a
non-zero exit status before any network I/O is attempted: the run is the
module-load `ConfigurationError` outcome, whose exit code is 1 and which
never reaches the POST. -/
theorem claim_C3 (k t : Option String) (post : PostResult)
    (hk : k = Option.none ∨ k = Option.some "")
    (ht : t = Option.none ∨ t = Option.some "") :
    runProgram k t post = configOutcome ∧
    configOutcome.exitCode ≠ 0 ∧ configOutcome.networkAttempted = false := by
  refine ⟨runProgram_config k t post ?_, by decide, rfl⟩
  rcases hk with rfl | rfl <;> rcases ht with rfl | rfl
  · exact Or.inl rfl
  · exact Or.inr rfl
  · exact Or.inl rfl
  · exact Or.inr rfl

theorem claim_C3_witness :
    runProgram Option.none Option.none PostResult.exn = configOutcome ∧
    configOutcome.exitCode ≠ 0 ∧ configOutcome.networkAttempted = false :=
  claim_C3 Option.none Option.none PostResult.exn (Or.inl rfl) (Or.inl rfl)

/-- Claim C7 (confirmed): if the extracted audio string contains a comma,
normalization discards everything up to and including the first comma
before decoding; and extraction on
`{"audio": "data:audio/wav;base64,QUJD"}` yields exactly the bytes
`b"ABC"` = `[65, 66, 67]`. -/
theorem claim_C7 (pre rest : List Char) (hp : ',' ∉ pre) :
    stripDataUrl (String.mk (pre ++ ',' :: rest)) = String.mk rest ∧
    extractBase64Audio
        (PyVal.dict [("audio", PyVal.str "data:audio/wav;base64,QUJD")]) =
      Except.ok (Option.some [65, 66, 67]) :=
  ⟨stripDataUrl_split pre rest hp, rfl⟩

theorem claim_C7_witness :
    stripDataUrl (String.mk (['a'] ++ ',' :: ['Q', 'U', 'J', 'D'])) =
      String.mk ['Q', 'U', 'J', 'D'] ∧
    extractBase64Audio
        (PyVal.dict [("audio", PyVal.str "data:audio/wav;base64,QUJD")]) =
      Except.ok (Option.some [65, 66, 67]) :=
  claim_C7 ['a'] ['Q', 'U', 'J', 'D'] (by decide)

/-- Claim C8 (confirmed): for every valid non-empty token resolved from
either recognized environment variable (first non-empty wins, Python
`or`), the built request carries an `Authorization` header whose value is
exactly the lowercase scheme keyword `bearer`, a space, and the token. -/
theorem claim_C8 (k t : Option String) (tok : String) (post : PostResult)
    (h : pyOr k t = Option.some tok) (htok : tok ≠ "") :
    (runProgram k t post).request = Option.some (buildRequest tok) ∧
    (buildRequest tok).authorization = "bearer " ++ tok := by
  constructor
  · rw [runProgram_key k t tok post h htok]
    exact runWithKey_request tok post
  · rfl

theorem claim_C8_witness :
    (runProgram (Option.some "sekrit") Option.none PostResult.exn).request =
      Option.some (buildRequest "sekrit") ∧
    (buildRequest "sekrit").authorization = "bearer " ++ "sekrit" :=
  claim_C8 (Option.some "sekrit") Option.none "sekrit" PostResult.exn rfl
    (by decide)

/-- Claim C10 (confirmed): when the audio field decodes successfully but to
zero bytes (`{"audio": "data:audio/wav;base64,"}`: the string after the
data-URL comma is empty), extraction returns `b""`, and `main` treats that
exactly like a missing audio field — `if not audio_bytes` is taken, the
diagnostic JSON dump is printed, the process exits 1, and no output file
is written. -/
theorem claim_C10 :
    extractBase64Audio
        (PyVal.dict [("audio", PyVal.str "data:audio/wav;base64,")]) =
      Except.ok (Option.some []) ∧
    runProgram (Option.some "key") Option.none
        (PostResult.resp ⟨200, "",
          Option.some (PyVal.dict [("audio", PyVal.str "data:audio/wav;base64,")])⟩) =
      { printed := [Msg.noAudioDump (pyTake
          (pyDumpsVal (PyVal.dict [("audio", PyVal.str "data:audio/wav;base64,")]) 0)
          2000)]
        exitCode := 1, crashed := false, networkAttempted := true
        jsonParseAttempted := true, request := Option.some (buildRequest "key")
        fileWritten := Option.none } :=
  ⟨rfl, rfl⟩

/-- The padding step produces a string of length divisible by 4 by
appending at most three `=` characters to the right. -/
theorem padCorrectChars_spec (l : List Char) :
    ∃ k, k < 4 ∧ padCorrectChars l = l ++ List.replicate k '=' ∧
      (padCorrectChars l).length % 4 = 0 := by
  unfold padCorrectChars
  by_cases h : l.length % 4 = 0
  · exact ⟨0, by omega, by simp [h], by simp [h]⟩
  · refine ⟨4 - l.length % 4, by omega, by simp [h], ?_⟩
    rw [if_neg h]
    simp only [List.length_append, List.length_replicate]
    omega

/-- Claim C4 (confirmed): during extraction, the candidate string (after
data-URL stripping) is right-padded with `=` characters until its length
is a multiple of 4 before decoding; if the padded string still fails to
decode, extraction returns no value with no exception escaping, and the
process exits non-zero with the diagnostic dump rather than crashing —
for every string-valued audio field. -/
theorem claim_C4 (kvs : List (String × PyVal)) (s : String)
    (hc : audioCandidate kvs = PyVal.str s) (hs : s ≠ "")
    (hfail : decodePipeline s = Option.none) :
    (∃ k, k < 4 ∧
      (padCorrect (stripDataUrl s)).toList =
        (stripDataUrl s).toList ++ List.replicate k '=' ∧
      (padCorrect (stripDataUrl s)).toList.length % 4 = 0) ∧
    extractBase64Audio (PyVal.dict kvs) = Except.ok Option.none ∧
    (∀ (key : String) (r : HttpResponse),
      ¬ (400 ≤ r.status ∧ r.status < 600) →
      r.json = Option.some (PyVal.dict kvs) →
      runWithKey key (PostResult.resp r) =
        { printed := [Msg.noAudioDump (pyTake (pyDumpsVal (PyVal.dict kvs) 0) 2000)]
          exitCode := 1, crashed := false, networkAttempted := true
          jsonParseAttempted := true, request := Option.some (buildRequest key)
          fileWritten := Option.none }) := by
  have hnone : extractBase64Audio (PyVal.dict kvs) = Except.ok Option.none := by
    rw [extract_candidate_str kvs s hc hs, hfail]
  refine ⟨?_, hnone, fun key r hst hj => runWithKey_no_audio key r _ hst hj hnone⟩
  obtain ⟨k, hk, he, hlen⟩ := padCorrectChars_spec (stripDataUrl s).toList
  exact ⟨k, hk, by rw [padCorrect_toList]; exact he, by rw [padCorrect_toList]; exact hlen⟩

theorem claim_C4_witness :
    audioCandidate [("audio", PyVal.str "QUJ!")] = PyVal.str "QUJ!" ∧
    decodePipeline "QUJ!" = Option.none ∧
    extractBase64Audio (PyVal.dict [("audio", PyVal.str "QUJ!")]) =
      Except.ok Option.none ∧
    runWithKey "key" (PostResult.resp ⟨200, "",
        Option.some (PyVal.dict [("audio", PyVal.str "QUJ!")])⟩) =
      { printed := [Msg.noAudioDump (pyTake
          (pyDumpsVal (PyVal.dict [("audio", PyVal.str "QUJ!")]) 0) 2000)]
        exitCode := 1, crashed := false, networkAttempted := true
        jsonParseAttempted := true, request := Option.some (buildRequest "key")
        fileWritten := Option.none } := by
  refine ⟨rfl, rfl, ?_, ?_⟩
  · exact (claim_C4 [("audio", PyVal.str "QUJ!")] "QUJ!" rfl (by decide) rfl).2.1
  · exact (claim_C4 [("audio", PyVal.str "QUJ!")] "QUJ!" rfl (by decide) rfl).2.2
      "key" ⟨200, "", Option.some (PyVal.dict [("audio", PyVal.str "QUJ!")])⟩
      (by simp) rfl

/-- Claim C2 counterexample: the claim extends to "arbitrary JSON structures
such as non-object top-level values", but on the top-level JSON value `[]`
(a list) `_extract_base64_audio` calls `.get` on a list and raises
`AttributeError`; the process terminates via the unhandled exception: exit
status 1, but nothing is printed — no 2000-character dump. -/
theorem claim_C2_counterexample :
    extractBase64Audio (PyVal.list []) = Except.error PyErr.attributeError ∧
    runProgram (Option.some "key") Option.none
        (PostResult.resp ⟨200, "[]", Option.some (PyVal.list [])⟩) =
      { printed := [], exitCode := 1, crashed := true, networkAttempted := true
        jsonParseAttempted := true, request := Option.some (buildRequest "key")
        fileWritten := Option.none } :=
  ⟨rfl, rfl⟩

/-- Claim C2 (corrected): for every parsed JSON object in which neither
a top-level `audio` non-empty string nor a well-shaped `output[0].audio`
string is found (the audio candidate is not a non-empty string),
extraction returns no value without raising, and the process exits
non-zero after printing a pretty-printed dump of the received JSON
truncated to at most 2000 characters.  (Non-object top-level values
instead make extraction raise `AttributeError` and the process crash with
no dump.) -/
theorem claim_C2 (kvs : List (String × PyVal)) (key : String)
    (r : HttpResponse)
    (hc : ∀ s : String, audioCandidate kvs = PyVal.str s → s = "")
    (hst : ¬ (400 ≤ r.status ∧ r.status < 600))
    (hj : r.json = Option.some (PyVal.dict kvs)) :
    extractBase64Audio (PyVal.dict kvs) = Except.ok Option.none ∧
    runWithKey key (PostResult.resp r) =
      { printed := [Msg.noAudioDump (pyTake (pyDumpsVal (PyVal.dict kvs) 0) 2000)]
        exitCode := 1, crashed := false, networkAttempted := true
        jsonParseAttempted := true, request := Option.some (buildRequest key)
        fileWritten := Option.none } ∧
    (pyTake (pyDumpsVal (PyVal.dict kvs) 0) 2000).length ≤ 2000 := by
  have he := extract_candidate_not_str kvs hc
  exact ⟨he, runWithKey_no_audio key r _ hst hj he, pyTake_length_le _ _⟩

theorem claim_C2_witness :
    extractBase64Audio (PyVal.dict [("foo", PyVal.int 1)]) =
      Except.ok Option.none ∧
    runWithKey "key" (PostResult.resp ⟨200, "",
        Option.some (PyVal.dict [("foo", PyVal.int 1)])⟩) =
      { printed := [Msg.noAudioDump (pyTake
          (pyDumpsVal (PyVal.dict [("foo", PyVal.int 1)]) 0) 2000)]
        exitCode := 1, crashed := false, networkAttempted := true
        jsonParseAttempted := true, request := Option.some (buildRequest "key")
        fileWritten := Option.none } ∧
    (pyTake (pyDumpsVal (PyVal.dict [("foo", PyVal.int 1)]) 0) 2000).length ≤ 2000 :=
  claim_C2 [("foo", PyVal.int 1)] "key"
    ⟨200, "", Option.some (PyVal.dict [("foo", PyVal.int 1)])⟩
    (fun s h => PyVal.noConfusion h) (by simp) rfl

/-- Claim C5 counterexample: the claim quantifies over every response object
whose top-level `audio` does not yield a non-empty string; but with
`{"audio": 5, "output": [{"audio": "QUJD"}]}` the truthy non-string
top-level value `5` blocks the fallback (`if not audio_field` is false)
and extraction returns `None`, not `b"ABC"`; likewise a fallback `audio`
that is the empty string is not used (extraction returns `None`, not
`b""`). -/
theorem claim_C5_counterexample :
    extractBase64Audio (PyVal.dict [("audio", PyVal.int 5),
        ("output", PyVal.list [PyVal.dict [("audio", PyVal.str "QUJD")]])]) =
      Except.ok Option.none ∧
    (Option.none : Option (List Nat)) ≠ Option.some [65, 66, 67] ∧
    extractBase64Audio
        (PyVal.dict [("output", PyVal.list [PyVal.dict [("audio", PyVal.str "")]])]) =
      Except.ok Option.none :=
  ⟨rfl, by decide, rfl⟩

/-- Claim C5 (corrected): for every response object whose top-level `audio`
field is absent or falsy (Python truthiness), if `output` is a non-empty
list whose first element is an object whose `audio` field is a
non-empty string, that string is fed to the decoding pipeline; in
particular extraction on `{"output": [{"audio": "QUJD"}]}` yields
`b"ABC"`. -/
theorem claim_C5 (kvs kvs2 : List (String × PyVal)) (rest : List PyVal)
    (s : String)
    (ha : truthy ((kvs.lookup "audio").getD PyVal.none) = false)
    (ho : (kvs.lookup "output").getD PyVal.none =
      PyVal.list (PyVal.dict kvs2 :: rest))
    (hs : kvs2.lookup "audio" = Option.some (PyVal.str s)) (hne : s ≠ "") :
    extractBase64Audio (PyVal.dict kvs) = Except.ok (decodePipeline s) ∧
    extractBase64Audio
        (PyVal.dict [("output", PyVal.list [PyVal.dict [("audio", PyVal.str "QUJD")]])]) =
      Except.ok (Option.some [65, 66, 67]) := by
  refine ⟨?_, rfl⟩
  have hcand : audioCandidate kvs = PyVal.str s := by
    unfold audioCandidate topAudio
    rw [ha, ho]
    simp [hs]
  exact extract_candidate_str kvs s hcand hne

theorem claim_C5_witness :
    extractBase64Audio
        (PyVal.dict [("output", PyVal.list [PyVal.dict [("audio", PyVal.str "QUJD")]])]) =
      Except.ok (decodePipeline "QUJD") ∧
    extractBase64Audio
        (PyVal.dict [("output", PyVal.list [PyVal.dict [("audio", PyVal.str "QUJD")]])]) =
      Except.ok (Option.some [65, 66, 67]) :=
  claim_C5 [("output", PyVal.list [PyVal.dict [("audio", PyVal.str "QUJD")]])]
    [("audio", PyVal.str "QUJD")] [] "QUJD" rfl rfl rfl (by decide)

/-- Claim C9 counterexample: the round trip fails for the empty byte string:
its base-64 encoding is `""`, which is falsy, so extraction returns `None`
rather than `b""`. -/
theorem claim_C9_counterexample :
    b64encodeList [] = [] ∧
    extractBase64Audio
        (PyVal.dict [("audio", PyVal.str (String.mk (b64encodeList [])))]) =
      Except.ok Option.none ∧
    (Except.ok Option.none : Except PyErr (Option (List Nat))) ≠
      Except.ok (Option.some []) :=
  ⟨rfl, rfl, by simp⟩

/-- Claim C9 (corrected): for every non-empty byte string `bs`,
extraction applied to a response object whose top-level `audio` field is
the standard base-64 encoding of `bs` — with or without its trailing `=`
padding — yields exactly `bs`: the decoded audio artifact is
byte-identical to the source-encoded payload after padding correction. -/
theorem claim_C9 (kvs : List (String × PyVal)) (s : String) (bs : List Nat)
    (hlt : ∀ x ∈ bs, x < 256) (hbs : bs ≠ [])
    (hk : kvs.lookup "audio" = Option.some (PyVal.str s))
    (hs : s = String.mk (b64encodeList bs) ∨
      s = String.mk ((b64encodeList bs).filter (fun c => !(c = '=')))) :
    extractBase64Audio (PyVal.dict kvs) = Except.ok (Option.some bs) := by
  have hsne : s ≠ "" := by
    rcases hs with rfl | rfl
    · intro h
      exact encode_ne_nil bs hbs (congrArg String.data h)
    · intro h
      exact filter_encode_ne_nil bs hlt hbs (congrArg String.data h)
  have hcand : audioCandidate kvs = PyVal.str s := by
    unfold audioCandidate topAudio
    rw [hk]
    simp [truthy, hsne]
  rw [extract_candidate_str kvs s hcand hsne]
  rcases hs with rfl | rfl
  · rw [decodePipeline_encode bs hlt]
  · rw [decodePipeline_encode_unpadded bs hlt]

theorem claim_C9_witness :
    extractBase64Audio (PyVal.dict [("audio", PyVal.str "QUJD")]) =
      Except.ok (Option.some [65, 66, 67]) :=
  claim_C9 [("audio", PyVal.str "QUJD")] "QUJD" [65, 66, 67] (by decide)
    (by decide) rfl (Or.inl rfl)

/-- Claim C1 counterexample: the claim covers every non-2xx status and every
transport failure, but (i) a received 304 response passes
`raise_for_status` (which raises only for 400–599), so the script goes on
to parse JSON — here printing the non-JSON message, not the HTTP error —
and (ii) on a transport failure with no response at all, `resp` is unbound
in the `except` handler, `getattr(resp, ...)` raises `UnboundLocalError`,
and the process terminates by traceback having printed nothing. -/
theorem claim_C1_counterexample :
    runProgram (Option.some "key") Option.none
        (PostResult.resp ⟨304, "redirect body", Option.none⟩) =
      { printed := [Msg.nonJson "redirect body"], exitCode := 1
        crashed := false, networkAttempted := true, jsonParseAttempted := true
        request := Option.some (buildRequest "key"), fileWritten := Option.none } ∧
    Msg.nonJson "redirect body" ≠ Msg.httpError (pyTake "redirect body" 500) ∧
    runProgram (Option.some "key") Option.none PostResult.exn =
      { printed := [], exitCode := 1, crashed := true, networkAttempted := true
        jsonParseAttempted := false, request := Option.some (buildRequest "key")
        fileWritten := Option.none } :=
  ⟨rfl, by decide, rfl⟩

/-- Claim C1 (corrected): for every received response with status 400–599
(the statuses for which `raise_for_status` raises), the process prints the
HTTP error with at most 500 characters of the response body and exits
non-zero without attempting to parse JSON or extract audio; for a
transport failure where no response was received, the process still exits
non-zero without parsing JSON, but via an unhandled `UnboundLocalError`
in the handler, printing no formatted message. -/
theorem claim_C1 (k t : Option String) (key : String) (r : HttpResponse)
    (hkey : pyOr k t = Option.some key) (hne : key ≠ "")
    (h4 : 400 ≤ r.status) (h6 : r.status < 600) :
    runProgram k t (PostResult.resp r) =
      { printed := [Msg.httpError (pyTake r.text 500)], exitCode := 1
        crashed := false, networkAttempted := true, jsonParseAttempted := false
        request := Option.some (buildRequest key), fileWritten := Option.none } ∧
    (pyTake r.text 500).length ≤ 500 ∧
    runProgram k t PostResult.exn =
      { printed := [], exitCode := 1, crashed := true, networkAttempted := true
        jsonParseAttempted := false, request := Option.some (buildRequest key)
        fileWritten := Option.none } := by
  refine ⟨?_, pyTake_length_le r.text 500, ?_⟩
  · rw [runProgram_key k t key _ hkey hne, runWithKey_http_error key r h4 h6]
  · rw [runProgram_key k t key _ hkey hne, runWithKey_exn key]

theorem claim_C1_witness :
    runProgram (Option.some "key") Option.none
        (PostResult.resp ⟨500, "upstream exploded", Option.none⟩) =
      { printed := [Msg.httpError (pyTake "upstream exploded" 500)]
        exitCode := 1, crashed := false, networkAttempted := true
        jsonParseAttempted := false, request := Option.some (buildRequest "key")
        fileWritten := Option.none } ∧
    (pyTake "upstream exploded" 500).length ≤ 500 ∧
    runProgram (Option.some "key") Option.none PostResult.exn =
      { printed := [], exitCode := 1, crashed := true, networkAttempted := true
        jsonParseAttempted := false, request := Option.some (buildRequest "key")
        fileWritten := Option.none } :=
  claim_C1 (Option.some "key") Option.none "key"
    ⟨500, "upstream exploded", Option.none⟩ rfl (by decide) (by decide)
    (by decide)

/-- Claim C6 counterexample: after a successful first run (which writes
`b"ABC"`) and a second run with identical inputs that fails during
extraction, the output file still holds the first run's bytes — the stale
file from the first run is retained, contradicting the claim. -/
theorem claim_C6_counterexample :
    applyFS
        (applyFS Option.none
          (runProgram (Option.some "key") Option.none
            (PostResult.resp ⟨200, "",
              Option.some (PyVal.dict [("audio", PyVal.str "QUJD")])⟩)))
        (runProgram (Option.some "key") Option.none
          (PostResult.resp ⟨200, "\x7b\x7d", Option.some (PyVal.dict [])⟩)) =
      Option.some [65, 66, 67] ∧
    (runProgram (Option.some "key") Option.none
        (PostResult.resp ⟨200, "\x7b\x7d", Option.some (PyVal.dict [])⟩)).exitCode ≠ 0 ∧
    Option.some [65, 66, 67] ≠ (Option.none : Option (List Nat)) :=
  ⟨rfl, by decide, by decide⟩

/-- Claim C6 (corrected): a failing run never creates or modifies the output
file — the file content is exactly what it was before the run (in
particular there is never a partial file, and after a successful first run
a failing second run leaves the first run's complete file in place); a
successful run overwrites the file with the bytes it decoded. -/
theorem claim_C6 (k t : Option String) (post : PostResult)
    (fs : Option (List Nat)) :
    ((runProgram k t post).exitCode ≠ 0 →
      (runProgram k t post).fileWritten = Option.none ∧
      applyFS fs (runProgram k t post) = fs) ∧
    ((runProgram k t post).exitCode = 0 →
      ∃ bs, (runProgram k t post).fileWritten = Option.some bs ∧
        applyFS fs (runProgram k t post) = Option.some bs) := by
  rcases run_cases k t post with ⟨hf, he⟩ | ⟨bs, hf, he⟩
  · refine ⟨fun _ => ⟨hf, ?_⟩, fun h0 => absurd (he ▸ h0) (by decide)⟩
    unfold applyFS
    rw [hf]
  · refine ⟨fun hne => absurd he hne, fun _ => ⟨bs, hf, ?_⟩⟩
    unfold applyFS
    rw [hf]

theorem claim_C6_witness :
    (runProgram (Option.some "key") Option.none
        (PostResult.resp ⟨200, "\x7b\x7d", Option.some (PyVal.dict [])⟩)).fileWritten =
      Option.none ∧
    applyFS (Option.some [65, 66, 67])
        (runProgram (Option.some "key") Option.none
          (PostResult.resp ⟨200, "\x7b\x7d", Option.some (PyVal.dict [])⟩)) =
      Option.some [65, 66, 67] :=
  (claim_C6 (Option.some "key") Option.none
      (PostResult.resp ⟨200, "\x7b\x7d", Option.some (PyVal.dict [])⟩)
      (Option.some [65, 66, 67])).1 (by decide)

end DeepInfra
